import Mathlib

/-!
Verification of the agent-selection / workflow-routing logic of the
report-writer configuration (`examples/advance/report_writer_new/main.py`).

The development shallowly embeds:
  * the turn log (`Message`: producer source, metadata map, content payload),
  * the routing function `selector_func`,
  * the two RoundRobin sub-teams (`team_insight`, `team_blueprint`) and the
    outer `final_team` termination configuration,
  * the JSON schema-repair step of the two validating pairs (modelled from
    the spec, since the repair is carried out by a configured LLM agent).
-/

/-- A single turn/event in the conversation log.

In the Python code a message is any `BaseAgentEvent | BaseChatMessage`;
the selector only reads `msg.source` (which may be absent or empty — both
are skipped by the `hasattr(msg, "source") and msg.source` truthiness
check, modelled as `none` / `some ""`), and `msg.metadata` (a `dict`,
modelled as an association list). The content payload is carried along to
state that it does not influence routing. -/
structure Message where
  source : Option String
  metadata : List (String × String)
  content : String
deriving Repr, DecidableEq

/-- The set of producing identities that have spoken, as collected by the
loop at the top of `selector_func`:
`if hasattr(msg, "source") and msg.source: agent_names.add(msg.source)`.
A `none` source models a missing `source` attribute and `some ""` a falsy
one; both are skipped, exactly as in the Python truthiness test. -/
def spokenSources (messages : List Message) : List String :=
  messages.filterMap (fun m =>
    match m.source with
    | some s => if s = "" then none else some s
    | none => none)

/-- Metadata of the most recent turn, when the log is non-empty. -/
def lastMetadata (messages : List Message) : Option (List (String × String)) :=
  (messages.getLast?).map Message.metadata

/-- The router of `final_team` (`selector_func` in main.py).

`Except.error` models the `IndexError` that Python's `messages[-1]` would
raise on an empty list; `Except.ok none` models returning Python `None`
(`dict.get` on a missing key), which tells the `SelectorGroupChat` that
the decision is undecided. -/
def selector_func (messages : List Message) : Except String (Option String) :=
  let agent_names := spokenSources messages
  if "word_insight_json_agent" ∉ agent_names then
    .ok (some "team_insight")
  else if "word_insight_json_agent" ∈ agent_names ∧
      "word_blueprint_json_agent" ∉ agent_names then
    .ok (some "team_blueprint")
  else if "word_insight_json_agent" ∈ agent_names ∧
      "word_blueprint_json_agent" ∈ agent_names ∧
      "writer_agent" ∉ agent_names then
    .ok (some "writer_agent")
  else
    match messages.getLast? with
    | some m => .ok (m.metadata.lookup "select_agent")
    | none => .error "IndexError: list index out of range"

/-- Claim C1: on every turn log (the empty log included) in which no turn's
producer identity is `"word_insight_json_agent"`, `selector_func` returns
`"team_insight"`, whatever override metadata the turns carry. -/
theorem c1_router_intake_first :
    selector_func [] = .ok (some "team_insight") ∧
    ∀ messages : List Message,
      "word_insight_json_agent" ∉ spokenSources messages →
      selector_func messages = .ok (some "team_insight") := by
  constructor
  · rfl
  · intro messages h
    simp [selector_func, h]

/-- Witness for C1: a one-turn log carrying an override in its metadata in
which the intake repair identity has not spoken. -/
theorem c1_router_intake_first_witness :
    "word_insight_json_agent" ∉
        spokenSources [⟨some "user", [("select_agent", "refiner_agent")], "hi"⟩] ∧
    selector_func [⟨some "user", [("select_agent", "refiner_agent")], "hi"⟩] =
      .ok (some "team_insight") := by
  refine ⟨by decide, ?_⟩
  exact c1_router_intake_first.2 _ (by decide)

/-- Claim C2: on every turn log in which `"word_insight_json_agent"` has
produced a turn but `"word_blueprint_json_agent"` has not, `selector_func`
returns `"team_blueprint"`. -/
theorem c2_router_planning_second
    (messages : List Message)
    (h1 : "word_insight_json_agent" ∈ spokenSources messages)
    (h2 : "word_blueprint_json_agent" ∉ spokenSources messages) :
    selector_func messages = .ok (some "team_blueprint") := by
  simp [selector_func, h1, h2]

/-- Witness for C2: a log in which only the user and the intake repair
agent have spoken. -/
theorem c2_router_planning_second_witness :
    "word_insight_json_agent" ∈
        spokenSources [⟨some "user", [], "t"⟩,
          ⟨some "word_insight_json_agent", [], "{}"⟩] ∧
    "word_blueprint_json_agent" ∉
        spokenSources [⟨some "user", [], "t"⟩,
          ⟨some "word_insight_json_agent", [], "{}"⟩] ∧
    selector_func [⟨some "user", [], "t"⟩,
        ⟨some "word_insight_json_agent", [], "{}"⟩] =
      .ok (some "team_blueprint") := by
  refine ⟨by decide, by decide, ?_⟩
  exact c2_router_planning_second _ (by decide) (by decide)

/-- Claim C3: on every turn log in which both repair identities have spoken
but `"writer_agent"` has not, `selector_func` returns `"writer_agent"`,
without reading any metadata override. -/
theorem c3_router_drafting_third
    (messages : List Message)
    (h1 : "word_insight_json_agent" ∈ spokenSources messages)
    (h2 : "word_blueprint_json_agent" ∈ spokenSources messages)
    (h3 : "writer_agent" ∉ spokenSources messages) :
    selector_func messages = .ok (some "writer_agent") := by
  simp [selector_func, h1, h2, h3]

/-- Witness for C3: a log in which both repair agents have spoken and the
most recent turn carries an override, which is not consulted. -/
theorem c3_router_drafting_third_witness :
    "word_insight_json_agent" ∈
        spokenSources [⟨some "word_insight_json_agent", [], "{}"⟩,
          ⟨some "word_blueprint_json_agent", [("select_agent", "explainer_agent")], "{}"⟩] ∧
    "word_blueprint_json_agent" ∈
        spokenSources [⟨some "word_insight_json_agent", [], "{}"⟩,
          ⟨some "word_blueprint_json_agent", [("select_agent", "explainer_agent")], "{}"⟩] ∧
    "writer_agent" ∉
        spokenSources [⟨some "word_insight_json_agent", [], "{}"⟩,
          ⟨some "word_blueprint_json_agent", [("select_agent", "explainer_agent")], "{}"⟩] ∧
    selector_func [⟨some "word_insight_json_agent", [], "{}"⟩,
        ⟨some "word_blueprint_json_agent", [("select_agent", "explainer_agent")], "{}"⟩] =
      .ok (some "writer_agent") := by
  refine ⟨by decide, by decide, by decide, ?_⟩
  exact c3_router_drafting_third _ (by decide) (by decide) (by decide)

/-- Claim C4: once the intake repair, planning repair and drafting
identities have all spoken, `selector_func` returns exactly the
`"select_agent"` entry of the most recent turn's metadata: the stored value
when the key is present, and `none` (undecided) when it is absent. -/
theorem c4_router_override_fallthrough
    (messages : List Message) (m : Message)
    (h1 : "word_insight_json_agent" ∈ spokenSources messages)
    (h2 : "word_blueprint_json_agent" ∈ spokenSources messages)
    (h3 : "writer_agent" ∈ spokenSources messages)
    (hlast : messages.getLast? = some m) :
    selector_func messages = .ok (m.metadata.lookup "select_agent") ∧
    (∀ v, m.metadata.lookup "select_agent" = some v →
      selector_func messages = .ok (some v)) ∧
    (m.metadata.lookup "select_agent" = none →
      selector_func messages = .ok none) := by
  have hmain : selector_func messages = .ok (m.metadata.lookup "select_agent") := by
    simp [selector_func, h1, h2, h3, hlast]
  refine ⟨hmain, ?_, ?_⟩
  · intro v hv
    rw [hmain, hv]
  · intro hv
    rw [hmain, hv]

/-- Witness for C4: a completed pipeline whose last turn carries the
override `"refiner_agent"`. -/
theorem c4_router_override_fallthrough_witness :
    "word_insight_json_agent" ∈
        spokenSources [⟨some "word_insight_json_agent", [], "{}"⟩,
          ⟨some "word_blueprint_json_agent", [], "{}"⟩,
          ⟨some "writer_agent", [("select_agent", "refiner_agent")], "draft"⟩] ∧
    selector_func [⟨some "word_insight_json_agent", [], "{}"⟩,
        ⟨some "word_blueprint_json_agent", [], "{}"⟩,
        ⟨some "writer_agent", [("select_agent", "refiner_agent")], "draft"⟩] =
      .ok (some "refiner_agent") := by
  refine ⟨by decide, ?_⟩
  exact (c4_router_override_fallthrough _
    ⟨some "writer_agent", [("select_agent", "refiner_agent")], "draft"⟩
    (by decide) (by decide) (by decide) (by decide)).2.1 "refiner_agent" (by decide)

/-- Claim C8: the router checks only set membership, not ordering: on every
log in which the planning repair identity has spoken but the intake repair
identity has not, `selector_func` still returns `"team_insight"`. -/
theorem c8_router_ignores_order
    (messages : List Message)
    (_h1 : "word_blueprint_json_agent" ∈ spokenSources messages)
    (h2 : "word_insight_json_agent" ∉ spokenSources messages) :
    selector_func messages = .ok (some "team_insight") := by
  simp [selector_func, h2]

/-- Witness for C8: an out-of-order log where only the planning repair
agent has spoken. -/
theorem c8_router_ignores_order_witness :
    "word_blueprint_json_agent" ∈
        spokenSources [⟨some "word_blueprint_json_agent", [], "{}"⟩] ∧
    "word_insight_json_agent" ∉
        spokenSources [⟨some "word_blueprint_json_agent", [], "{}"⟩] ∧
    selector_func [⟨some "word_blueprint_json_agent", [], "{}"⟩] =
      .ok (some "team_insight") := by
  refine ⟨by decide, by decide, ?_⟩
  exact c8_router_ignores_order _ (by decide) (by decide)

/-- A producing identity in the spoken set forces the log to be non-empty,
so `messages[-1]` is only evaluated on non-empty logs. -/
theorem spokenSources_ne_nil {s : String} {messages : List Message}
    (h : s ∈ spokenSources messages) : messages ≠ [] := by
  intro hnil
  rw [hnil] at h
  simp [spokenSources] at h

/-- Claim C10: `selector_func` is total: on every finite log, the empty log
included, it returns a decision and never raises — the `messages[-1]`
indexing is reachable only behind a non-empty spoken set, and on the empty
log the first branch answers `"team_insight"` before any indexing. -/
theorem c10_selector_total :
    (∀ messages : List Message, ∃ r, selector_func messages = .ok r) ∧
    selector_func [] = .ok (some "team_insight") := by
  constructor
  · intro messages
    by_cases h1 : "word_insight_json_agent" ∈ spokenSources messages
    · have hne : messages ≠ [] := spokenSources_ne_nil h1
      obtain ⟨m, hm⟩ := Option.isSome_iff_exists.mp
        ((List.getLast?_isSome).mpr hne)
      by_cases h2 : "word_blueprint_json_agent" ∈ spokenSources messages
      · by_cases h3 : "writer_agent" ∈ spokenSources messages
        · exact ⟨m.metadata.lookup "select_agent", by
            simp [selector_func, h1, h2, h3, hm]⟩
        · exact ⟨some "writer_agent", by simp [selector_func, h1, h2, h3]⟩
      · exact ⟨some "team_blueprint", by simp [selector_func, h1, h2]⟩
    · exact ⟨some "team_insight", by simp [selector_func, h1]⟩
  · rfl

/-- Claim C7: the router is a pure function of the spoken-identity set and
the most recent turn's metadata: two logs with equal spoken-identity sets
and equal last-turn metadata get the same decision; content payloads and
the order or multiplicity of earlier turns have no influence. -/
theorem c7_router_pure
    (msgs1 msgs2 : List Message)
    (hset : ∀ s : String, s ∈ spokenSources msgs1 ↔ s ∈ spokenSources msgs2)
    (hmeta : lastMetadata msgs1 = lastMetadata msgs2) :
    selector_func msgs1 = selector_func msgs2 := by
  by_cases h1 : "word_insight_json_agent" ∈ spokenSources msgs1
  · have h1' := (hset _).mp h1
    by_cases h2 : "word_blueprint_json_agent" ∈ spokenSources msgs1
    · have h2' := (hset _).mp h2
      by_cases h3 : "writer_agent" ∈ spokenSources msgs1
      · have h3' := (hset _).mp h3
        obtain ⟨a, ha⟩ := Option.isSome_iff_exists.mp
          ((List.getLast?_isSome).mpr (spokenSources_ne_nil h1))
        obtain ⟨b, hb⟩ := Option.isSome_iff_exists.mp
          ((List.getLast?_isSome).mpr (spokenSources_ne_nil h1'))
        have hab : a.metadata = b.metadata := by
          have h := hmeta
          rw [lastMetadata, lastMetadata, ha, hb] at h
          exact Option.some.inj h
        simp [selector_func, h1, h1', h2, h2', h3, h3', ha, hb, hab]
      · have h3' : "writer_agent" ∉ spokenSources msgs2 :=
          fun hc => h3 ((hset _).mpr hc)
        simp [selector_func, h1, h1', h2, h2', h3, h3']
    · have h2' : "word_blueprint_json_agent" ∉ spokenSources msgs2 :=
        fun hc => h2 ((hset _).mpr hc)
      simp [selector_func, h1, h1', h2, h2']
  · have h1' : "word_insight_json_agent" ∉ spokenSources msgs2 :=
      fun hc => h1 ((hset _).mpr hc)
    simp [selector_func, h1, h1']

/-- Witness for C7: two logs differing in content payload and in a
source-less event, with the same spoken set and last metadata, get the
same decision. -/
theorem c7_router_pure_witness :
    lastMetadata [⟨some "user", [], "hello"⟩] =
      lastMetadata [⟨none, [], "tool event"⟩, ⟨some "user", [], "other words"⟩] ∧
    selector_func [⟨some "user", [], "hello"⟩] =
      selector_func [⟨none, [], "tool event"⟩, ⟨some "user", [], "other words"⟩] := by
  refine ⟨rfl, ?_⟩
  exact c7_router_pure _ _ (fun _ => Iff.rfl) rfl

/-- A `RoundRobinGroupChat` configuration as used by the two validating
pairs: the cyclic participant roster and the `SourceMatchTermination`
source list. -/
structure RoundRobinTeam where
  participants : List String
  terminationSources : List String

/-- `SourceMatchTermination`: a turn terminates the run exactly when its
producer identity is one of the configured sources. -/
def sourceMatch (sources : List String) (m : Message) : Bool :=
  match m.source with
  | some s => sources.contains s
  | none => false

/-- `team_insight`: content agent `word_insight_agent` paired with repair
agent `word_insight_json_agent`; terminates on the repair identity. -/
def team_insight : RoundRobinTeam :=
  { participants := ["word_insight_agent", "word_insight_json_agent"],
    terminationSources := ["word_insight_json_agent"] }

/-- `team_blueprint`: content agent `word_blueprint_agent` paired with
repair agent `word_blueprint_json_agent`; terminates on the repair
identity. -/
def team_blueprint : RoundRobinTeam :=
  { participants := ["word_blueprint_agent", "word_blueprint_json_agent"],
    terminationSources := ["word_blueprint_json_agent"] }

/-- The round-robin speaker at step `k` (participants cycle in order). -/
def rrSpeaker (t : RoundRobinTeam) (k : Nat) : Option String :=
  t.participants.get? (k % t.participants.length)

/-- The sources of the turns appended by a round-robin sub-run starting at
step `k` with the given fuel, stopping (inclusively) at the first turn
whose producer is in the termination source list. -/
def rrRunAux (t : RoundRobinTeam) : Nat → Nat → List String
  | 0, _ => []
  | fuel + 1, k =>
    match rrSpeaker t k with
    | none => []
    | some s =>
      if t.terminationSources.contains s then [s]
      else s :: rrRunAux t fuel (k + 1)

/-- The sources of the turns of one full sub-run of a round-robin team. -/
def rrRun (t : RoundRobinTeam) (fuel : Nat) : List String :=
  rrRunAux t fuel 0

/-- Claim C6: each validating pair alternates strictly starting with the
content agent, appends the content turn and then the repair turn, and its
sub-run terminates exactly on a turn whose producer identity equals the
repair agent's identity — no other producer ends it. -/
theorem c6_validating_pair_protocol :
    (∀ k : Nat,
      rrSpeaker team_insight (2 * k) = some "word_insight_agent" ∧
      rrSpeaker team_insight (2 * k + 1) = some "word_insight_json_agent" ∧
      rrSpeaker team_blueprint (2 * k) = some "word_blueprint_agent" ∧
      rrSpeaker team_blueprint (2 * k + 1) = some "word_blueprint_json_agent") ∧
    (∀ fuel : Nat,
      rrRun team_insight (fuel + 2) =
        ["word_insight_agent", "word_insight_json_agent"] ∧
      rrRun team_blueprint (fuel + 2) =
        ["word_blueprint_agent", "word_blueprint_json_agent"]) ∧
    (∀ m : Message,
      (sourceMatch team_insight.terminationSources m = true ↔
        m.source = some "word_insight_json_agent") ∧
      (sourceMatch team_blueprint.terminationSources m = true ↔
        m.source = some "word_blueprint_json_agent")) := by
  refine ⟨?_, ?_, ?_⟩
  · intro k
    have h0 : 2 * k % 2 = 0 := Nat.mul_mod_right 2 k
    have h1 : (2 * k + 1) % 2 = 1 := by omega
    refine ⟨?_, ?_, ?_, ?_⟩ <;>
      simp [rrSpeaker, team_insight, team_blueprint, h0, h1]
  · intro fuel
    exact ⟨rfl, rfl⟩
  · intro m
    obtain ⟨src, md, c⟩ := m
    cases src with
    | none => exact ⟨by simp [sourceMatch], by simp [sourceMatch]⟩
    | some s =>
      constructor <;>
        simp [sourceMatch, team_insight, team_blueprint]

/-- The `SourceMatchTermination` source list configured on `final_team`. -/
def finalTerminationSources : List String :=
  ["word_insight_json_agent", "word_blueprint_json_agent", "writer_agent",
   "refiner_agent", "explainer_agent"]

/-- A participant of the outer `SelectorGroupChat`: either a single agent
or one of the two round-robin validating pairs. -/
inductive Participant where
  | agent (name : String)
  | team (t : RoundRobinTeam)

/-- The participant roster of `final_team`, in declaration order. -/
def final_team_participants : List Participant :=
  [.team team_insight, .team team_blueprint, .agent "writer_agent",
   .agent "refiner_agent", .agent "explainer_agent"]

/-- The producer identity of the last turn a participant's run appends: a
single agent appends its own turn; a validating pair ends with the last
turn of its sub-run. -/
def terminalSource (fuel : Nat) : Participant → Option String
  | .agent n => some n
  | .team t => (rrRun t fuel).getLast?

/-- Claim C9: the global termination of `final_team` fires exactly on a
turn produced by one of the five configured identities; turns by the
content agents or the user never fire it; and every participant's run ends
with a turn whose producer is in that set, so each outer iteration
processes exactly one routing decision before stopping. -/
theorem c9_final_team_termination :
    (∀ m : Message, sourceMatch finalTerminationSources m = true ↔
      ∃ s, m.source = some s ∧ s ∈ finalTerminationSources) ∧
    (∀ md c, sourceMatch finalTerminationSources ⟨some "word_insight_agent", md, c⟩ = false ∧
      sourceMatch finalTerminationSources ⟨some "word_blueprint_agent", md, c⟩ = false ∧
      sourceMatch finalTerminationSources ⟨some "user", md, c⟩ = false) ∧
    (∀ fuel : Nat, final_team_participants.all
      (fun p => match terminalSource (fuel + 2) p with
        | some s => finalTerminationSources.contains s
        | none => false) = true) := by
  refine ⟨?_, ?_, ?_⟩
  · intro m
    obtain ⟨src, md, c⟩ := m
    cases src with
    | none => simp [sourceMatch]
    | some s => simp [sourceMatch]
  · intro md c
    refine ⟨?_, ?_, ?_⟩ <;> simp [sourceMatch, finalTerminationSources]
  · intro fuel
    rfl

/-- A JSON-like payload: the raw input a repair agent receives (arbitrary
nested mapping / list / string / number / null / boolean). -/
inductive Json where
  | null
  | bool (b : Bool)
  | num (n : Int)
  | str (s : String)
  | arr (elems : List Json)
  | obj (fields : List (String × Json))

/-- A payload is a JSON string. -/
def isStr : Json → Bool
  | .str _ => true
  | _ => false

/-- A payload is a JSON array of strings (`List[str]`). -/
def isStrList : Json → Bool
  | .arr xs => xs.all isStr
  | _ => false

/-- A payload is a JSON string or null (`str | None`). -/
def isOptStr : Json → Bool
  | .str _ => true
  | .null => true
  | _ => false

/-- Field lookup in a JSON object. -/
def lookupField (fields : List (String × Json)) (k : String) : Option Json :=
  fields.lookup k

/-- The enumerated value set of `SupplementaryQuestion.type` in
`WordInsightAnalysis` (main.py, `Literal["open", "single_choice",
"multiple_choice"]`). -/
def questionTypes : List String :=
  ["open", "single_choice", "multiple_choice"]

/-- A payload is a legal `SupplementaryQuestion.type` tag. -/
def isQuestionType : Json → Bool
  | .str s => questionTypes.contains s
  | _ => false

/-- The all-defaults instance of `WordInsightAnalysis.ExistingInformation`
documented in the repair agent's contract (empty strings and empty list). -/
def defaultExistingInformation : Json :=
  .obj [("document_type", .str ""), ("target_audience", .str ""),
        ("writing_purpose", .str ""), ("style_requirement", .str ""),
        ("key_content", .arr [])]

/-- The all-defaults instance of `WordInsightAnalysis` documented in the
repair agent's contract. -/
def defaultWordInsightAnalysis : Json :=
  .obj [("existing_information", defaultExistingInformation),
        ("supplementary_questions", .arr [])]

/-- The all-defaults instance of `WordBlueprintStructure` documented in
the repair agent's contract (`"500-1000字"` is its documented fallback for
the format-constrained `estimated_length`). -/
def defaultWordBlueprintStructure : Json :=
  .obj [("title", .str ""), ("sections", .arr []),
        ("estimated_length", .str "500-1000字")]

/-- Modelled from the spec: repair of a required text field (the repair is
performed by the configured LLM repair agents, not by repository code) —
keep a present string, otherwise insert the default empty string. -/
def repairStrField (fields : List (String × Json)) (k : String) : Json :=
  match lookupField fields k with
  | some (.str s) => .str s
  | _ => .str ""

/-- Modelled from the spec: repair of a `List[str]` field — keep a present
array after dropping its non-string elements, otherwise the empty list. -/
def repairStrListField (fields : List (String × Json)) (k : String) : Json :=
  match lookupField fields k with
  | some (.arr xs) => .arr (xs.filter isStr)
  | _ => .arr []

/-- Modelled from the spec: repair of the enum-constrained `type` field —
keep a legal tag, replace anything else with the documented fallback
`"open"`. -/
def repairQuestionType (fields : List (String × Json)) : Json :=
  match lookupField fields "type" with
  | some (.str s) => if questionTypes.contains s then .str s else .str "open"
  | _ => .str "open"

/-- Modelled from the spec: repair of the optional `description` field of
a blueprint `Section` — keep a present string, default to null. -/
def repairDescription (fields : List (String × Json)) : Json :=
  match lookupField fields "description" with
  | some (.str s) => .str s
  | _ => .null

/-- Modelled from the spec: repair of the nested `ExistingInformation`
object — field-by-field repair of a mapping, wholesale replacement by the
all-defaults instance otherwise. -/
def repairExistingInformation (v : Json) : Json :=
  match v with
  | .obj fields =>
    .obj [("document_type", repairStrField fields "document_type"),
          ("target_audience", repairStrField fields "target_audience"),
          ("writing_purpose", repairStrField fields "writing_purpose"),
          ("style_requirement", repairStrField fields "style_requirement"),
          ("key_content", repairStrListField fields "key_content")]
  | _ => defaultExistingInformation

/-- Modelled from the spec: repair of one `SupplementaryQuestion` element —
mappings are repaired field by field, non-mapping list elements are
dropped (`none`). -/
def repairSupplementaryQuestion (v : Json) : Option Json :=
  match v with
  | .obj fields =>
    some (.obj [("question", repairStrField fields "question"),
                ("options", repairStrListField fields "options"),
                ("reason", repairStrField fields "reason"),
                ("type", repairQuestionType fields)])
  | _ => none

/-- Modelled from the spec: repair of the `existing_information` field of
`WordInsightAnalysis`. -/
def repairInsightEI (fields : List (String × Json)) : Json :=
  match lookupField fields "existing_information" with
  | some ei => repairExistingInformation ei
  | none => defaultExistingInformation

/-- Modelled from the spec: repair of the `supplementary_questions` field
of `WordInsightAnalysis`. -/
def repairInsightSQ (fields : List (String × Json)) : Json :=
  match lookupField fields "supplementary_questions" with
  | some (.arr xs) => .arr (xs.filterMap repairSupplementaryQuestion)
  | _ => .arr []

/-- Modelled from the spec: the total schema-repair step of the intake
pair (`word_insight_json_agent`) — field-by-field repair of a mapping,
the all-defaults instance for any unparseable root. -/
def repairWordInsightAnalysis (v : Json) : Json :=
  match v with
  | .obj fields =>
    .obj [("existing_information", repairInsightEI fields),
          ("supplementary_questions", repairInsightSQ fields)]
  | _ => defaultWordInsightAnalysis

/-- Modelled from the spec: repair of the format-constrained
`estimated_length` field — keep a present string, otherwise the documented
fallback `"500-1000字"`. -/
def repairEstimatedLength (fields : List (String × Json)) : Json :=
  match lookupField fields "estimated_length" with
  | some (.str s) => .str s
  | _ => .str "500-1000字"

/-- Modelled from the spec: repair of one blueprint `Section` element —
mappings are repaired field by field, non-mapping list elements are
dropped (`none`). -/
def repairSection (v : Json) : Option Json :=
  match v with
  | .obj fields =>
    some (.obj [("subheading", repairStrField fields "subheading"),
                ("points", repairStrListField fields "points"),
                ("description", repairDescription fields)])
  | _ => none

/-- Modelled from the spec: repair of the `sections` field of
`WordBlueprintStructure`. -/
def repairBlueprintSections (fields : List (String × Json)) : Json :=
  match lookupField fields "sections" with
  | some (.arr xs) => .arr (xs.filterMap repairSection)
  | _ => .arr []

/-- Modelled from the spec: the total schema-repair step of the planning
pair (`word_blueprint_json_agent`) — field-by-field repair of a mapping,
the all-defaults instance for any unparseable root. -/
def repairWordBlueprintStructure (v : Json) : Json :=
  match v with
  | .obj fields =>
    .obj [("title", repairStrField fields "title"),
          ("sections", repairBlueprintSections fields),
          ("estimated_length", repairEstimatedLength fields)]
  | _ => defaultWordBlueprintStructure

/-- Conformance to `WordInsightAnalysis.ExistingInformation` (main.py):
exactly the five declared fields, in declared order, with their declared
types. -/
def conformsExistingInformation : Json → Bool
  | .obj [(k1, a), (k2, b), (k3, c), (k4, d), (k5, e)] =>
      k1 == "document_type" && k2 == "target_audience" &&
      k3 == "writing_purpose" && k4 == "style_requirement" &&
      k5 == "key_content" &&
      isStr a && isStr b && isStr c && isStr d && isStrList e
  | _ => false

/-- Conformance to `WordInsightAnalysis.SupplementaryQuestion` (main.py):
exactly the four declared fields, in declared order, with their declared
types, the `type` tag inside its enumerated set. -/
def conformsSupplementaryQuestion : Json → Bool
  | .obj [(k1, q), (k2, o), (k3, r), (k4, t)] =>
      k1 == "question" && k2 == "options" && k3 == "reason" && k4 == "type" &&
      isStr q && isStrList o && isStr r && isQuestionType t
  | _ => false

/-- A payload is an array of conformant `SupplementaryQuestion`s. -/
def isConformantQuestionList : Json → Bool
  | .arr xs => xs.all conformsSupplementaryQuestion
  | _ => false

/-- Conformance to `WordInsightAnalysis` (main.py): exactly its two
declared fields, in declared order, each conformant. -/
def conformsWordInsightAnalysis : Json → Bool
  | .obj [(k1, ei), (k2, sq)] =>
      k1 == "existing_information" && k2 == "supplementary_questions" &&
      conformsExistingInformation ei && isConformantQuestionList sq
  | _ => false

/-- Conformance to `WordBlueprintStructure.Section` (main.py): exactly the
three declared fields, in declared order, `description` optional
(string or null). -/
def conformsSection : Json → Bool
  | .obj [(k1, s), (k2, p), (k3, d)] =>
      k1 == "subheading" && k2 == "points" && k3 == "description" &&
      isStr s && isStrList p && isOptStr d
  | _ => false

/-- A payload is an array of conformant `Section`s. -/
def isConformantSectionList : Json → Bool
  | .arr xs => xs.all conformsSection
  | _ => false

/-- Conformance to `WordBlueprintStructure` (main.py): exactly its three
declared fields, in declared order, each conformant. -/
def conformsWordBlueprintStructure : Json → Bool
  | .obj [(k1, t), (k2, s), (k3, e)] =>
      k1 == "title" && k2 == "sections" && k3 == "estimated_length" &&
      isStr t && isConformantSectionList s && isStr e
  | _ => false

theorem isStr_repairStrField (fields : List (String × Json)) (k : String) :
    isStr (repairStrField fields k) = true := by
  unfold repairStrField
  split <;> rfl

theorem isStrList_repairStrListField (fields : List (String × Json)) (k : String) :
    isStrList (repairStrListField fields k) = true := by
  unfold repairStrListField
  split
  · simp only [isStrList, List.all_eq_true]
    intro a ha
    exact (List.mem_filter.mp ha).2
  · rfl

theorem isQuestionType_repairQuestionType (fields : List (String × Json)) :
    isQuestionType (repairQuestionType fields) = true := by
  unfold repairQuestionType
  split
  · split
    · next h => simpa [isQuestionType] using h
    · decide
  · decide

theorem isOptStr_repairDescription (fields : List (String × Json)) :
    isOptStr (repairDescription fields) = true := by
  unfold repairDescription
  split <;> rfl

theorem isStr_repairEstimatedLength (fields : List (String × Json)) :
    isStr (repairEstimatedLength fields) = true := by
  unfold repairEstimatedLength
  split <;> rfl

theorem conformsExistingInformation_repair (v : Json) :
    conformsExistingInformation (repairExistingInformation v) = true := by
  unfold repairExistingInformation
  split
  · simp [conformsExistingInformation, isStr_repairStrField,
      isStrList_repairStrListField]
  · decide

theorem conformsExistingInformation_repairInsightEI (fields : List (String × Json)) :
    conformsExistingInformation (repairInsightEI fields) = true := by
  unfold repairInsightEI
  split
  · exact conformsExistingInformation_repair _
  · decide

theorem conformsSupplementaryQuestion_repair (v j : Json)
    (h : repairSupplementaryQuestion v = some j) :
    conformsSupplementaryQuestion j = true := by
  unfold repairSupplementaryQuestion at h
  split at h
  · cases h
    simp [conformsSupplementaryQuestion, isStr_repairStrField,
      isStrList_repairStrListField, isQuestionType_repairQuestionType]
  · exact absurd h (by simp)

theorem isConformantQuestionList_repairInsightSQ (fields : List (String × Json)) :
    isConformantQuestionList (repairInsightSQ fields) = true := by
  unfold repairInsightSQ
  split
  · simp only [isConformantQuestionList, List.all_eq_true]
    intro j hj
    obtain ⟨a, _, ha⟩ := List.mem_filterMap.mp hj
    exact conformsSupplementaryQuestion_repair a j ha
  · rfl

theorem conformsSection_repair (v j : Json)
    (h : repairSection v = some j) :
    conformsSection j = true := by
  unfold repairSection at h
  split at h
  · cases h
    simp [conformsSection, isStr_repairStrField,
      isStrList_repairStrListField, isOptStr_repairDescription]
  · exact absurd h (by simp)

theorem isConformantSectionList_repairBlueprintSections (fields : List (String × Json)) :
    isConformantSectionList (repairBlueprintSections fields) = true := by
  unfold repairBlueprintSections
  split
  · simp only [isConformantSectionList, List.all_eq_true]
    intro j hj
    obtain ⟨a, _, ha⟩ := List.mem_filterMap.mp hj
    exact conformsSection_repair a j ha
  · rfl

/-- Claim C5: the schema-repair step of each validating pair is total: for
every payload (mapping, list, string, number, boolean or null) it produces
a value conforming to its schema, degrading to the schema's all-defaults
instance on an unparseable root — so a validating pair never hands the
outer log a turn whose payload fails its schema. -/
theorem c5_schema_repair_total :
    (∀ v : Json,
      conformsWordInsightAnalysis (repairWordInsightAnalysis v) = true ∧
      conformsWordBlueprintStructure (repairWordBlueprintStructure v) = true) ∧
    repairWordInsightAnalysis (.str "not a mapping") = defaultWordInsightAnalysis ∧
    repairWordBlueprintStructure (.str "not a mapping") = defaultWordBlueprintStructure := by
  refine ⟨?_, rfl, rfl⟩
  intro v
  constructor
  · unfold repairWordInsightAnalysis
    split
    · simp [conformsWordInsightAnalysis, conformsExistingInformation_repairInsightEI,
        isConformantQuestionList_repairInsightSQ]
    · decide
  · unfold repairWordBlueprintStructure
    split
    · simp [conformsWordBlueprintStructure, isStr_repairStrField,
        isConformantSectionList_repairBlueprintSections, isStr_repairEstimatedLength]
    · decide
